import Mathlib

/-!
Shallow embedding of the EA-Flood-Monitoring API client (`api_client.py`,
`utils.py`).  Machine dates are modelled as explicit calendar fields,
timestamps of readings as natural numbers (the parsed instant), reading
values as integers, pandas data frames as explicit row lists carrying the
pandas row index, and the HTTP layer as an oracle mapping resolved URLs to
the `items` collection already unwrapped per response shape.  All requests a
computation issues are collected in order in a trace list, so that claims
about which endpoints are (not) contacted can be stated.
-/

namespace EA

/-- Decimal digit characters, mirroring Python's rendering of numbers. -/
def digitChar : Nat → Char
  | 0 => '0' | 1 => '1' | 2 => '2' | 3 => '3' | 4 => '4'
  | 5 => '5' | 6 => '6' | 7 => '7' | 8 => '8' | _ => '9'

/-- Decimal digits of `n`, most significant first (fuel-driven recursion). -/
def natDigitsAux : Nat → Nat → List Char
  | 0, _ => []
  | fuel + 1, n => if n < 10 then [digitChar n] else natDigitsAux fuel (n / 10) ++ [digitChar (n % 10)]

/-- Zero-pad a digit list on the left to width `w`, as `strftime` does. -/
def padTo (w : Nat) (s : List Char) : List Char :=
  List.replicate (w - s.length) '0' ++ s

/-- `n` rendered in decimal, zero-padded to width `w`. -/
def padNum (w n : Nat) : String :=
  ⟨padTo w (natDigitsAux (n + 1) n)⟩

/-- A wall-clock instant, the fields `strftime` reads (`datetime` in the source). -/
structure DT where
  year : Nat
  month : Nat
  day : Nat
  hour : Nat
  minute : Nat
  second : Nat
deriving DecidableEq, Repr

/-- `utils.dt_to_str dt DATE_FORMAT`: `strftime` with format `%Y-%m-%d`. -/
def dt_to_str_date (dt : DT) : String :=
  padNum 4 dt.year ++ "-" ++ padNum 2 dt.month ++ "-" ++ padNum 2 dt.day

/-- `utils.dt_to_str dt DATETIME_FORMAT`: `strftime` with format `%Y-%m-%dT%H:%M:%SZ`. -/
def dt_to_str_datetime (dt : DT) : String :=
  padNum 4 dt.year ++ "-" ++ padNum 2 dt.month ++ "-" ++ padNum 2 dt.day ++ "T" ++
    padNum 2 dt.hour ++ ":" ++ padNum 2 dt.minute ++ ":" ++ padNum 2 dt.second ++ "Z"

/-- The `start_end_date` tuple of the source: a start instant and an optional end. -/
structure DateWindow where
  start : DT
  stop : Option DT
deriving DecidableEq, Repr

/-- `APIClient.BASE_URL`. -/
def BASE_URL : String := "https://environment.data.gov.uk/flood-monitoring"

/-- `APIClient.MEASURE_PARAMETER_NAMES`. -/
def MEASURE_PARAMETER_NAMES : List String := ["level", "flow", "wind", "temperature"]

/-- `APIClient.STATION_ENDPOINT` instantiated by `.format(station_id=...)`. -/
def STATION_ENDPOINT_fmt (station_id : String) : String :=
  "id/stations/?stationReference=" ++ station_id

/-- `APIClient.MEASURES_ENDPOINT` instantiated by `.format(station_id=...)`. -/
def MEASURES_ENDPOINT_fmt (station_id : String) : String :=
  "id/stations/" ++ station_id ++ "/measures"

/-- `APIClient.create_date_filter_endpoint`: instantiates `DATE_FILTER_ENDPOINT`
(`/id/stations/{station_id}/readings?startdate={s}&enddate={e}`) when the end date
is present and `DATE_SINCE_FILTER_ENDPOINT` (`/id/stations/{station_id}/readings?since={s}`)
when it is absent. -/
def create_date_filter_endpoint (station_id : String) (start_end_date : DateWindow) : String :=
  match start_end_date.stop with
  | some e =>
      "/id/stations/" ++ station_id ++ "/readings?startdate=" ++
        dt_to_str_date start_end_date.start ++ "&enddate=" ++ dt_to_str_date e
  | none =>
      "/id/stations/" ++ station_id ++ "/readings?since=" ++
        dt_to_str_datetime start_end_date.start

/-- `APIClient.create_reading_date_filter_endpoint`: instantiates
`READINGS_DATE_FILTER` (`/readings?startdate={s}&enddate={e}`) when the end date is
present and `READINGS_SINCE_FILTER` (`/readings?since={s}`) when it is absent. -/
def create_reading_date_filter_endpoint (start_end_date : DateWindow) : String :=
  match start_end_date.stop with
  | some e =>
      "/readings?startdate=" ++ dt_to_str_date start_end_date.start ++ "&enddate=" ++
        dt_to_str_date e
  | none =>
      "/readings?since=" ++ dt_to_str_datetime start_end_date.start

/-- Python's `str.startswith`, computed on the character list (so that it
reduces inside the kernel). -/
def startsWithS (s p : String) : Bool :=
  p.data.isPrefixOf s.data

/-- Endpoint resolution performed by `APIClient.get_api_response`: default the
extension, strip one leading slash (Python `[1:]`, one character), and prepend
`BASE_URL` unless the extension already starts with `http`. -/
def resolve_endpoint (endpoint_extension : Option String) : String :=
  let ext :=
    match endpoint_extension with
    | none => "id/stations"
    | some e => if startsWithS e "/" then ⟨e.data.drop 1⟩ else e
  if startsWithS ext "http" then ext else BASE_URL ++ "/" ++ ext

/-- The JSON envelope of every API response: callers only ever receive `items`. -/
structure Envelope (α : Type) where
  context : String
  items : List α
deriving DecidableEq, Repr

/-- `APIClient.get_api_response`, with the HTTP GET abstracted as `http`
(mapping the requested URL to the parsed JSON envelope). -/
def get_api_response {α : Type} (http : String → Envelope α) (endpoint_extension : Option String) : List α :=
  (http (resolve_endpoint endpoint_extension)).items

/-- The `latestReading` sub-object of an entry of a station's measures collection
(only the field the client reads). -/
structure LatestReading where
  measure : String
deriving DecidableEq, Repr

/-- One entry of the `items` of `id/stations/{id}/measures`.  `latestReading` is
`none` when the entry carries no (non-empty) `latestReading` sub-object, i.e. when
`d.get("latestReading", False)` is falsy in the source. -/
structure MeasureEntry where
  parameter : String
  unitName : String
  qualifier : String
  latestReading : Option LatestReading
deriving DecidableEq, Repr

/-- One entry of the `items` of a station search (`label`, `stationReference`). -/
structure StationRec where
  label : String
  stationReference : String
deriving DecidableEq, Repr

/-- One raw reading entry.  `dateTime` is the instant already parsed by
`utils.str_to_dt` (modelled as an abstract totally ordered time stamp) and
`value` the numeric reading. -/
structure RawReading where
  dateTime : Nat
  value : Int
deriving DecidableEq, Repr

/-- Errors the client can raise: the three `assert` messages of
`check_is_valid_measure`, `check_valid_station_id` and `check_station_measure`
(Python `AssertionError`s), the `ValueError` raised by unpacking `zip(*[])` of an
empty sequence, and the `ValueError` `pandas.concat` raises on no objects. -/
inductive Err where
  | unknownMeasure : String → Err
  | stationNotFound : String → Err
  | measureNotAtStation : String → String → Err
  | unpackError : Err
  | emptyConcat : Err
deriving DecidableEq, Repr

/-- The HTTP world: each map sends a resolved URL to the `items` collection the
live API would return there, typed per response shape.  `stationItems` only
records how many station records the station-filter endpoint returns, which is
all `check_valid_station_id` inspects. -/
structure World where
  stationItems : String → Nat
  measureItems : String → List MeasureEntry
  searchItems : String → List StationRec
  readingItems : String → List RawReading

/-- `APIClient.check_is_valid_measure`. -/
def check_is_valid_measure (measure_name : String) : Except Err Unit :=
  if measure_name ∈ MEASURE_PARAMETER_NAMES then .ok () else .error (.unknownMeasure measure_name)

/-- The pure part of `APIClient.get_station_measures`, applied to the `items` of
the station's measures collection: four set-comprehension deduplicated lists over
the entries whose `latestReading` is truthy. -/
def get_station_measures (data : List MeasureEntry) :
    List String × List String × List String × List String :=
  let act := data.filterMap (fun d => d.latestReading.map (fun lr => (d, lr)))
  ((act.map (fun x => x.1.parameter)).dedup,
   (act.map (fun x => x.2.measure)).dedup,
   (act.map (fun x => x.1.unitName)).dedup,
   (act.map (fun x => x.1.qualifier)).dedup)

/-- `APIClient.get_station_info`: builds `MEASURES_ENDPOINT` for the id and
returns the fetched items, together with the list of URLs requested. -/
def get_station_info (w : World) (station_id : String) : List MeasureEntry × List String :=
  let url := resolve_endpoint (some (MEASURES_ENDPOINT_fmt station_id))
  (w.measureItems url, [url])

/-- `APIClient.station_name_to_ids`: joins space-separated words with `+`,
fetches the search endpoint and unpacks `zip(*[(label, ref) ...])`, which in
Python raises `ValueError` when the match list is empty.  Returns the result (or
error) together with the URLs requested. -/
def station_name_to_ids (w : World) (station_name : String) :
    Except Err (List String × List String) × List String :=
  let joined : String := ⟨station_name.data.map (fun c => if c = ' ' then '+' else c)⟩
  let url := resolve_endpoint (some ("id/stations?search=" ++ joined))
  let data := w.searchItems url
  (if data.isEmpty then .error .unpackError
   else .ok (data.map (fun d => d.label), data.map (fun d => d.stationReference)),
   [url])

/-- A row of a per-measure data frame: the pandas row index assigned at
construction, the timestamp, and the value. -/
structure MeasRow where
  idx : Nat
  date : Nat
  value : Int
deriving DecidableEq, Repr

/-- A two-column per-measure data frame (`Date` plus one value column named by
the measure), as built by `create_measurement_df`. -/
structure MeasDF where
  name : String
  rows : List MeasRow
deriving DecidableEq, Repr

instance decRelMeasRowLe : DecidableRel (fun a b : MeasRow => a.date ≤ b.date) :=
  fun a b => Nat.decLe a.date b.date

/-- `APIClient.create_measurement_df`: pairs dates with values, indexes the rows
0,1,2,... as `pd.DataFrame` does, and sorts them ascending by the `Date` column.
`pd.DataFrame.sort_values` is modelled by a stable sort (the reading most
favourable to the spec; pandas' default quicksort promises even less on ties). -/
def create_measurement_df (dates : List Nat) (measurements : List Int)
    (measurement_name : String) : MeasDF :=
  { name := measurement_name,
    rows := List.insertionSort (fun a b => a.date ≤ b.date)
      (((dates.zip measurements).enum).map (fun p => ⟨p.1, p.2.1, p.2.2⟩)) }

/-- `APIClient.post_process_station_measurement_data`: `dates, values = zip(*[...])`
raises `ValueError` on an empty reading collection; otherwise it splits the pairs
and builds the measurement frame. -/
def post_process_station_measurement_data (data : List RawReading)
    (measurement_name : String) : Except Err MeasDF :=
  match data with
  | [] => .error .unpackError
  | _ => .ok (create_measurement_df (data.map (fun d => d.dateTime))
      (data.map (fun d => d.value)) measurement_name)

/-- A combined frame as produced by `pd.concat(dfs, axis=1)`: a shared row index
and a flat list of labelled columns, each column a list of optional cells
parallel to the index (`none` is pandas `NaN`). -/
structure Frame where
  index : List Nat
  cols : List (String × List (Option Int))
deriving DecidableEq, Repr

/-- The row index of `pd.concat(dfs, axis=1)`: the input index when all frames
agree on it, otherwise the sorted union of the indexes (outer join on the row
index). -/
def concatIndex (idxs : List (List Nat)) : List Nat :=
  match idxs with
  | [] => []
  | i :: rest =>
      if rest.all (fun j => j = i) then i
      else List.insertionSort (fun a b => a ≤ b) (i :: rest).flatten.dedup

/-- `pd.concat(dfs, axis=1)`: aligns the frames on the row index (an outer join
on the index, not on the `Date` column) and keeps every frame's two columns, so
each measure contributes its own `Date` column. -/
def concatAxis1 (dfs : List MeasDF) : Frame :=
  let idx := concatIndex (dfs.map (fun d => d.rows.map (fun r => r.idx)))
  { index := idx,
    cols := dfs.flatMap (fun d =>
      [("Date", idx.map (fun i => (d.rows.find? (fun r => r.idx = i)).map (fun r => Int.ofNat r.date))),
       (d.name, idx.map (fun i => (d.rows.find? (fun r => r.idx = i)).map (fun r => r.value)))]) }

/-- The fetch loop of `get_station_readings`: for each (measure, endpoint) pair
request the endpoint and post-process the readings, stopping at the first raised
error.  Returns the frames (or the error) and the URLs requested in order. -/
def fetch_readings_loop (w : World) : List (String × String) → Except Err (List MeasDF) × List String
  | [] => (.ok [], [])
  | (measure, ep) :: rest =>
      let url := resolve_endpoint (some ep)
      match post_process_station_measurement_data (w.readingItems url) measure with
      | .error e => (.error e, [url])
      | .ok df =>
          match fetch_readings_loop w rest with
          | (.error e, t) => (.error e, url :: t)
          | (.ok dfs, t) => (.ok (df :: dfs), url :: t)

/-- The tail of `get_station_readings` after the catalog is resolved: append the
reading date filter to each endpoint, fetch and post-process each measure, build
the measurement-info mapping, and combine the frames with `pd.concat(dfs, axis=1)`
(which raises on an empty frame list). -/
def readings_tail (w : World) (start_end_date : DateWindow)
    (measure_names endpoints units qualifiers : List String) (trace0 : List String) :
    Except Err (Frame × List (String × String × String)) × List String :=
  let rdf := create_reading_date_filter_endpoint start_end_date
  let endpoints2 := endpoints.map (fun ep => ep ++ rdf)
  match fetch_readings_loop w (measure_names.zip endpoints2) with
  | (.error e, t) => (.error e, trace0 ++ t)
  | (.ok dfs, t) =>
      if dfs.isEmpty then (.error .emptyConcat, trace0 ++ t)
      else
        let info := (measure_names.zip (qualifiers.zip units)).map
          (fun x => (x.1, x.2.1, x.2.2))
        (.ok (concatAxis1 dfs, info), trace0 ++ t)

/-- `APIClient.get_station_readings` after the measure-name validity check:
station existence check, optional station-records-this-measure check, catalog
resolution (re-fetching the catalog and filtering it positionally against the
zipped parameter list when a measure name is given), then the fetch loop. -/
def get_station_readings_checked (w : World) (station_id : String)
    (start_end_date : DateWindow) (measure_name : Option String) :
    Except Err (Frame × List (String × String × String)) × List String :=
  let url_s := resolve_endpoint (some (STATION_ENDPOINT_fmt station_id))
  if w.stationItems url_s = 0 then (.error (.stationNotFound station_id), [url_s])
  else
    let url_m := resolve_endpoint (some (MEASURES_ENDPOINT_fmt station_id))
    match measure_name with
    | some m =>
        let cat := get_station_measures (w.measureItems url_m)
        if m ∈ cat.1 then
          let cat2 := get_station_measures (w.measureItems url_m)
          let endpoints := ((cat2.2.1.zip cat2.1).filter (fun x => x.2 = m)).map (fun x => x.1)
          let units := ((cat2.2.2.1.zip cat2.1).filter (fun x => x.2 = m)).map (fun x => x.1)
          let qualifiers := ((cat2.2.2.2.zip cat2.1).filter (fun x => x.2 = m)).map (fun x => x.1)
          readings_tail w start_end_date [m] endpoints units qualifiers [url_s, url_m, url_m]
        else (.error (.measureNotAtStation station_id m), [url_s, url_m])
    | none =>
        let cat := get_station_measures (w.measureItems url_m)
        readings_tail w start_end_date cat.1 cat.2.1 cat.2.2.1 cat.2.2.2 [url_s, url_m]

/-- `APIClient.get_station_readings`: when a measure name is supplied its
validity is checked first (a pure assertion, before any request is issued);
only then are the station and its catalog consulted. -/
def get_station_readings (w : World) (station_id : String)
    (start_end_date : DateWindow) (measure_name : Option String) :
    Except Err (Frame × List (String × String × String)) × List String :=
  match measure_name with
  | some m =>
      if m ∈ MEASURE_PARAMETER_NAMES then
        get_station_readings_checked w station_id start_end_date (some m)
      else (.error (.unknownMeasure m), [])
  | none => get_station_readings_checked w station_id start_end_date none

/-- Following the spec's words for the fetch primitive: normalize one leading
path separator, then prefix the fixed service base URL exactly when the
argument is not already an absolute URL. -/
def spec_resolved_url (s : String) : String :=
  let stripped := if startsWithS s "/" then ⟨s.data.drop 1⟩ else s
  if startsWithS stripped "http" then stripped else BASE_URL ++ "/" ++ stripped

/-- The query-parameter part of an endpoint: its characters from the first `?`
onward. -/
def querySuffix (s : String) : List Char :=
  s.data.dropWhile (fun c => c != '?')

/-- The two data columns of a per-measure frame, index stripped: the (`Date`,
value) content in row order. -/
def colsOf (df : MeasDF) : List (Nat × Int) :=
  df.rows.map (fun r => (r.date, r.value))

/-- A window open at the end, starting 2025-03-01 00:00:00. -/
def sinceMarch : DateWindow := ⟨⟨2025, 3, 1, 0, 0, 0⟩, none⟩

/-- An inert world: no station records, no measures, no matches, no readings. -/
def emptyWorld : World :=
  { stationItems := fun _ => 0, measureItems := fun _ => [],
    searchItems := fun _ => [], readingItems := fun _ => [] }

/-- A flow measure entry whose per-measure endpoint is an absolute URL, as the
live API returns in `latestReading.measure`. -/
def flowEntry : MeasureEntry := ⟨"flow", "UF", "QF", some ⟨"http://m/EF"⟩⟩

/-- A level measure entry, second active sensor of the same station. -/
def levelEntry : MeasureEntry := ⟨"level", "UL", "QL", some ⟨"http://m/EL"⟩⟩

/-- World for the outer-join example: one station recording `flow` at instants
1 and 2 and `level` at instants 2 and 3. -/
def wJoin : World :=
  { stationItems := fun _ => 1,
    measureItems := fun _ => [flowEntry, levelEntry],
    searchItems := fun _ => [],
    readingItems := fun url =>
      if url = "http://m/EF/readings?since=2025-03-01T00:00:00Z" then [⟨1, 10⟩, ⟨2, 20⟩]
      else if url = "http://m/EL/readings?since=2025-03-01T00:00:00Z" then [⟨2, 30⟩, ⟨3, 40⟩]
      else [] }

/-- World for the empty-readings case: a valid station with an active flow
sensor whose readings collection is empty over the queried window. -/
def wEmptyReadings : World :=
  { stationItems := fun _ => 1,
    measureItems := fun _ => [flowEntry],
    searchItems := fun _ => [],
    readingItems := fun _ => [] }

/-- World in which a name search finds two stations. -/
def wTwoMatches : World :=
  { stationItems := fun _ => 0,
    measureItems := fun _ => [],
    searchItems := fun _ => [⟨"River Dee at Chester", "1001"⟩, ⟨"River Dee at Bala", "1002"⟩],
    readingItems := fun _ => [] }

/-- C3: with a present end the builders emit the closed-range filter with both
bounds in zero-padded date-only format, with an absent end the since filter
with the start in full date-time format; in particular (2025-03-01, none)
yields `...since=2025-03-01T00:00:00Z` and (2025-03-01, 2025-03-02) yields
`...startdate=2025-03-01&enddate=2025-03-02`. -/
theorem claim_C3_date_filter_formats :
    (∀ s e : DT, create_reading_date_filter_endpoint ⟨s, some e⟩ =
      "/readings?startdate=" ++ dt_to_str_date s ++ "&enddate=" ++ dt_to_str_date e)
    ∧ (∀ s : DT, create_reading_date_filter_endpoint ⟨s, none⟩ =
      "/readings?since=" ++ dt_to_str_datetime s)
    ∧ (∀ (i : String) (s e : DT), create_date_filter_endpoint i ⟨s, some e⟩ =
      "/id/stations/" ++ i ++ "/readings?startdate=" ++ dt_to_str_date s ++ "&enddate=" ++
        dt_to_str_date e)
    ∧ (∀ (i : String) (s : DT), create_date_filter_endpoint i ⟨s, none⟩ =
      "/id/stations/" ++ i ++ "/readings?since=" ++ dt_to_str_datetime s)
    ∧ create_reading_date_filter_endpoint ⟨⟨2025, 3, 1, 0, 0, 0⟩, none⟩ =
      "/readings?since=2025-03-01T00:00:00Z"
    ∧ create_reading_date_filter_endpoint ⟨⟨2025, 3, 1, 0, 0, 0⟩, some ⟨2025, 3, 2, 0, 0, 0⟩⟩ =
      "/readings?startdate=2025-03-01&enddate=2025-03-02" :=
  ⟨fun _ _ => rfl, fun _ => rfl, fun _ _ _ => rfl, fun _ _ => rfl, by decide, by decide⟩

/-- C7: `get_api_response` strips one leading `/`, prefixes the fixed base URL
exactly when the argument is not already absolute (an absolute URL passes
unchanged), and returns only the `items` collection of the envelope — for the
defaulted argument as well. -/
theorem claim_C7_fetch_primitive {α : Type} (http : String → Envelope α)
    (ext : Option String) :
    get_api_response http ext =
      (http (match ext with
             | none => BASE_URL ++ "/id/stations"
             | some s => spec_resolved_url s)).items := by
  cases ext with
  | none =>
      have h : resolve_endpoint none = BASE_URL ++ "/id/stations" := by decide
      simp only [get_api_response, h]
  | some s =>
      have h : resolve_endpoint (some s) = spec_resolved_url s := rfl
      simp only [get_api_response, h]

/-- C10: measure-name validity is checked before any station lookup: whenever
the supplied measure name is outside the fixed enum, `get_station_readings`
fails with the unknown-measure error in every world (so regardless of station
validity) and its request trace is empty. -/
theorem claim_C10_measure_checked_first (w : World) (station_id : String)
    (win : DateWindow) (m : String) (h : m ∉ MEASURE_PARAMETER_NAMES) :
    get_station_readings w station_id win (some m) =
      (.error (.unknownMeasure m), []) := by
  simp only [get_station_readings, if_neg h]

/-- Witness for C10 at a concrete invalid measure name and a world whose
station would be valid. -/
theorem claim_C10_witness :
    "rainfall" ∉ MEASURE_PARAMETER_NAMES ∧
      get_station_readings wJoin "E2534" sinceMarch (some "rainfall") =
        (.error (.unknownMeasure "rainfall"), []) :=
  ⟨by decide, claim_C10_measure_checked_first wJoin "E2534" sinceMarch "rainfall" (by decide)⟩

/-- C2 fails on the code: unpacking `zip(*[...])` of an empty reading
collection raises the Python `ValueError` (`unpackError` here), both in
`post_process_station_measurement_data` itself and propagated out of
`get_station_readings`, instead of an explicitly empty table reported as an
`EmptyReadingsError`-class "no data" condition. -/
theorem claim_C2_empty_readings_crash :
    post_process_station_measurement_data [] "flow" = .error Err.unpackError
    ∧ (get_station_readings wEmptyReadings "E2534" sinceMarch (some "flow")).1 =
        .error Err.unpackError := by
  exact ⟨rfl, rfl⟩

/-- C4 fails on the code for the zero-match case: `station_name_to_ids`
URL-encodes spaces as `+` and returns parallel label/reference sequences
covering every match when matches exist, but on zero matches `zip(*[])`
unpacking raises the Python `ValueError` (`unpackError` here) instead of
returning a pair of empty sequences. -/
theorem claim_C4_name_search :
    (station_name_to_ids wTwoMatches "River Dee").1 =
      .ok (["River Dee at Chester", "River Dee at Bala"], ["1001", "1002"])
    ∧ (station_name_to_ids wTwoMatches "River Dee").2 =
      ["https://environment.data.gov.uk/flood-monitoring/id/stations?search=River+Dee"]
    ∧ (station_name_to_ids emptyWorld "Atlantis City").1 = .error Err.unpackError := by
  exact ⟨rfl, rfl, rfl⟩

/-- C8 fails on the code: `get_station_info` requests the station's measures
collection (`id/stations/{id}/measures`) and returns its items, not the
per-station record set served by the station-filter endpoint
(`id/stations/?stationReference={id}`) that `check_valid_station_id` uses. -/
theorem claim_C8_station_info_wrong_endpoint :
    (get_station_info wEmptyReadings "E2534").2 =
      ["https://environment.data.gov.uk/flood-monitoring/id/stations/E2534/measures"]
    ∧ (get_station_info wEmptyReadings "E2534").1 = [flowEntry]
    ∧ resolve_endpoint (some (STATION_ENDPOINT_fmt "E2534")) =
      "https://environment.data.gov.uk/flood-monitoring/id/stations/?stationReference=E2534"
    ∧ MEASURES_ENDPOINT_fmt "E2534" ≠ STATION_ENDPOINT_fmt "E2534" := by
  exact ⟨rfl, rfl, rfl, by decide⟩

/-- C1 fails on the code: on the spec's own example (one station, `flow` at
instants 1,2 and `level` at instants 2,3) the combined table of
`get_station_readings` is `pd.concat(dfs, axis=1)`, which aligns the
per-measure tables on the pandas row index — the result has the two rows of
the shared index 0,1 and one `Date` column per measure, instead of one row per
distinct timestamp of the 3-element union with nulls for absent measures. -/
theorem claim_C1_concat_joins_on_index :
    (get_station_readings wJoin "S" sinceMarch none).1 =
      .ok (⟨[0, 1],
            [("Date", [some 1, some 2]), ("flow", [some 10, some 20]),
             ("Date", [some 2, some 3]), ("level", [some 30, some 40])]⟩,
           [("flow", "QF", "UF"), ("level", "QL", "UL")])
    ∧ (((wJoin.readingItems "http://m/EF/readings?since=2025-03-01T00:00:00Z").map
          (fun r => r.dateTime) ++
        (wJoin.readingItems "http://m/EL/readings?since=2025-03-01T00:00:00Z").map
          (fun r => r.dateTime)).dedup).length = 3 := by
  exact ⟨rfl, rfl⟩

/-- C5: `get_station_measures` counts an entry iff it carries a (non-empty)
`latestReading` sub-object, and its four sequences hold exactly the distinct
parameters, the distinct `latestReading.measure` endpoint paths, the distinct
unit names and the distinct qualifiers of the counted entries, each list
deduplicated independently (no duplicates remain). -/
theorem claim_C5_measure_catalog (data : List MeasureEntry) :
    ((get_station_measures data).1.Nodup ∧ ∀ x, x ∈ (get_station_measures data).1 ↔
      ∃ d ∈ data, d.latestReading.isSome ∧ d.parameter = x)
    ∧ ((get_station_measures data).2.1.Nodup ∧ ∀ x, x ∈ (get_station_measures data).2.1 ↔
      ∃ d ∈ data, ∃ lr, d.latestReading = some lr ∧ lr.measure = x)
    ∧ ((get_station_measures data).2.2.1.Nodup ∧ ∀ x, x ∈ (get_station_measures data).2.2.1 ↔
      ∃ d ∈ data, d.latestReading.isSome ∧ d.unitName = x)
    ∧ ((get_station_measures data).2.2.2.Nodup ∧ ∀ x, x ∈ (get_station_measures data).2.2.2 ↔
      ∃ d ∈ data, d.latestReading.isSome ∧ d.qualifier = x) := by
  refine ⟨⟨List.nodup_dedup _, fun x => ?_⟩, ⟨List.nodup_dedup _, fun x => ?_⟩,
    ⟨List.nodup_dedup _, fun x => ?_⟩, ⟨List.nodup_dedup _, fun x => ?_⟩⟩ <;>
  · simp only [get_station_measures, List.mem_dedup, List.mem_map, List.mem_filterMap,
      Option.map_eq_some', Option.isSome_iff_exists]
    aesop

/-- `querySuffix` ignores a `?`-free leading string. -/
theorem querySuffix_append_clean (pre tail : String)
    (hpre : ∀ c ∈ pre.data, (c != '?') = true) :
    querySuffix (pre ++ tail) = querySuffix tail := by
  simp only [querySuffix, String.data_append]
  exact List.dropWhile_append_of_pos hpre

/-- C6: for every station id (one not itself containing `?`) and every window,
the station-anchored builder and the per-measure builder produce the identical
query-parameter substring from `?` onward; both are pure functions, so the
common suffix is deterministic in the window. -/
theorem claim_C6_builders_same_query (station_id : String) (win : DateWindow)
    (h : station_id.data.all (fun c => c != '?') = true) :
    querySuffix (create_date_filter_endpoint station_id win) =
      querySuffix (create_reading_date_filter_endpoint win) := by
  have hid : ∀ c ∈ station_id.data, (c != '?') = true := List.all_eq_true.mp h
  have hsd : ∀ c ∈ ("/id/stations/" : String).data, (c != '?') = true := by decide
  have hrd : ∀ c ∈ ("/readings" : String).data, (c != '?') = true := by decide
  have hpre : ∀ c ∈ ("/id/stations/" ++ station_id ++ "/readings" : String).data,
      (c != '?') = true := by
    intro c hc
    rcases List.mem_append.mp ((String.data_append _ _) ▸ hc) with h1 | h1
    · rcases List.mem_append.mp ((String.data_append _ _) ▸ h1) with h2 | h2
      · exact hsd c h2
      · exact hid c h2
    · exact hrd c h1
  obtain ⟨s, e⟩ := win
  cases e with
  | some ed =>
      have e1 : create_date_filter_endpoint station_id ⟨s, some ed⟩ =
          ("/id/stations/" ++ station_id ++ "/readings") ++
            ("?startdate=" ++ dt_to_str_date s ++ "&enddate=" ++ dt_to_str_date ed) := by
        show "/id/stations/" ++ station_id ++ "/readings?startdate=" ++ dt_to_str_date s ++
            "&enddate=" ++ dt_to_str_date ed = _
        rw [show ("/readings?startdate=" : String) = "/readings" ++ "?startdate=" by decide]
        simp only [String.append_assoc]
      have e2 : create_reading_date_filter_endpoint ⟨s, some ed⟩ =
          "/readings" ++ ("?startdate=" ++ dt_to_str_date s ++ "&enddate=" ++ dt_to_str_date ed) := by
        show "/readings?startdate=" ++ dt_to_str_date s ++ "&enddate=" ++ dt_to_str_date ed = _
        rw [show ("/readings?startdate=" : String) = "/readings" ++ "?startdate=" by decide]
        simp only [String.append_assoc]
      rw [e1, e2, querySuffix_append_clean _ _ hpre, querySuffix_append_clean _ _ hrd]
  | none =>
      have e1 : create_date_filter_endpoint station_id ⟨s, none⟩ =
          ("/id/stations/" ++ station_id ++ "/readings") ++
            ("?since=" ++ dt_to_str_datetime s) := by
        show "/id/stations/" ++ station_id ++ "/readings?since=" ++ dt_to_str_datetime s = _
        rw [show ("/readings?since=" : String) = "/readings" ++ "?since=" by decide]
        simp only [String.append_assoc]
      have e2 : create_reading_date_filter_endpoint ⟨s, none⟩ =
          "/readings" ++ ("?since=" ++ dt_to_str_datetime s) := by
        show "/readings?since=" ++ dt_to_str_datetime s = _
        rw [show ("/readings?since=" : String) = "/readings" ++ "?since=" by decide]
        simp only [String.append_assoc]
      rw [e1, e2, querySuffix_append_clean _ _ hpre, querySuffix_append_clean _ _ hrd]

/-- Witness for C6 at a concrete station id and window. -/
theorem claim_C6_witness :
    ("E2534" : String).data.all (fun c => c != '?') = true ∧
      querySuffix (create_date_filter_endpoint "E2534" sinceMarch) =
        querySuffix (create_reading_date_filter_endpoint sinceMarch) :=
  ⟨by decide, claim_C6_builders_same_query "E2534" sinceMarch (by decide)⟩

instance decRelPairLe : DecidableRel (fun p q : Nat × Int => p.1 ≤ q.1) :=
  fun p q => Nat.decLe p.1 q.1

instance totalPairLe : IsTotal (Nat × Int) (fun p q => p.1 ≤ q.1) :=
  ⟨fun a b => Nat.le_total a.1 b.1⟩

instance transPairLe : IsTrans (Nat × Int) (fun p q => p.1 ≤ q.1) :=
  ⟨fun _ _ _ h1 h2 => Nat.le_trans h1 h2⟩

instance antisymmPairLt : IsAntisymm (Nat × Int) (fun p q => p.1 < q.1) :=
  ⟨fun _ _ h1 h2 => absurd (Nat.lt_trans h1 h2) (Nat.lt_irrefl _)⟩

instance totalMeasRowLe : IsTotal MeasRow (fun a b => a.date ≤ b.date) :=
  ⟨fun a b => Nat.le_total a.date b.date⟩

instance transMeasRowLe : IsTrans MeasRow (fun a b => a.date ≤ b.date) :=
  ⟨fun _ _ _ h1 h2 => Nat.le_trans h1 h2⟩

/-- Zipping reversed lists of equal length reverses the zip. -/
theorem zip_reverse_eq {α β : Type} :
    ∀ (d : List α) (v : List β), d.length = v.length →
      d.reverse.zip v.reverse = (d.zip v).reverse
  | [], [], _ => rfl
  | [], _ :: _, h => by simp at h
  | _ :: _, [], h => by simp at h
  | a :: d, b :: v, h => by
      have hl : d.length = v.length := Nat.succ.inj h
      simp only [List.reverse_cons, List.zip_cons_cons]
      rw [List.zip_append (by simp [hl]), zip_reverse_eq d v hl]
      simp

/-- A stable sort on the timestamp key is determined by the multiset of rows
once the keys are pairwise distinct. -/
theorem insertionSort_eq_of_perm_of_nodup_keys (l₁ l₂ : List (Nat × Int))
    (hp : List.Perm l₁ l₂) (hn : (l₁.map Prod.fst).Nodup) :
    List.insertionSort (fun p q : Nat × Int => p.1 ≤ q.1) l₁ =
      List.insertionSort (fun p q : Nat × Int => p.1 ≤ q.1) l₂ := by
  have key : ∀ l : List (Nat × Int), (l.map Prod.fst).Nodup →
      List.Pairwise (fun p q : Nat × Int => p.1 < q.1)
        (List.insertionSort (fun p q : Nat × Int => p.1 ≤ q.1) l) := by
    intro l hl
    have hsort : List.Sorted (fun p q : Nat × Int => p.1 ≤ q.1)
        (List.insertionSort (fun p q : Nat × Int => p.1 ≤ q.1) l) :=
      List.sorted_insertionSort _ l
    have hpm : List.Perm ((List.insertionSort (fun p q : Nat × Int => p.1 ≤ q.1) l).map Prod.fst)
        (l.map Prod.fst) := (List.perm_insertionSort _ l).map _
    have hnd : ((List.insertionSort (fun p q : Nat × Int => p.1 ≤ q.1) l).map Prod.fst).Nodup :=
      hpm.nodup_iff.mpr hl
    have hne : List.Pairwise (fun p q : Nat × Int => p.1 ≠ q.1)
        (List.insertionSort (fun p q : Nat × Int => p.1 ≤ q.1) l) :=
      List.pairwise_map.mp hnd
    exact (List.Pairwise.and hsort hne).imp (fun hab => Nat.lt_of_le_of_ne hab.1 hab.2)
  have hperm : List.Perm (List.insertionSort (fun p q : Nat × Int => p.1 ≤ q.1) l₁)
      (List.insertionSort (fun p q : Nat × Int => p.1 ≤ q.1) l₂) :=
    ((List.perm_insertionSort _ l₁).trans hp).trans (List.perm_insertionSort _ l₂).symm
  exact List.eq_of_perm_of_sorted hperm (key l₁ hn)
    (key l₂ (((hp.map Prod.fst).nodup_iff).mp hn))

/-- The (`Date`, value) columns of a measurement frame are the stable sort of
the zipped input pairs: the pandas row index is carried along but does not
influence the comparisons. -/
theorem colsOf_create_measurement_df (dates : List Nat) (values : List Int) (name : String) :
    colsOf (create_measurement_df dates values name) =
      List.insertionSort (fun p q : Nat × Int => p.1 ≤ q.1) (dates.zip values) := by
  have hmap := List.map_insertionSort (fun a b : MeasRow => a.date ≤ b.date)
    (fun p q : Nat × Int => p.1 ≤ q.1) (fun r : MeasRow => (r.date, r.value))
    (((dates.zip values).enum).map (fun p => ⟨p.1, p.2.1, p.2.2⟩))
    (fun _ _ _ _ => Iff.rfl)
  simp only [colsOf, create_measurement_df]
  rw [hmap, List.map_map]
  have : ((fun r : MeasRow => (r.date, r.value)) ∘ fun p : Nat × (Nat × Int) => ⟨p.1, p.2.1, p.2.2⟩) =
      (fun p : Nat × (Nat × Int) => p.2) := rfl
  rw [this]
  have h2 : ((dates.zip values).enum).map (fun p : Nat × (Nat × Int) => p.2) = dates.zip values :=
    List.enum_map_snd _
  rw [h2]

/-- C9 fails on the code at tied timestamps: two readings sharing one
timestamp, fed in reversed order, normalize to a table with the two rows
swapped (the model even grants the spec a stable sort; pandas' default
quicksort promises less), so the tables are not identical. -/
theorem claim_C9_counterexample :
    colsOf (create_measurement_df ([5, 5] : List Nat).reverse ([1, 2] : List Int).reverse "flow") ≠
      colsOf (create_measurement_df [5, 5] [1, 2] "flow") := by
  decide

/-- C9 amended: when the timestamps are pairwise distinct (and dates pair up
with values), normalization is invariant under reversing the input, comparing
the (`Date`, value) columns — the pandas row index still records original
input positions; the output is always sorted ascending by timestamp. -/
theorem claim_C9_normalization_order (dates : List Nat) (values : List Int) (name : String)
    (hnd : dates.Nodup) (hlen : dates.length = values.length) :
    colsOf (create_measurement_df dates.reverse values.reverse name) =
      colsOf (create_measurement_df dates values name)
    ∧ List.Sorted (fun a b : MeasRow => a.date ≤ b.date)
        (create_measurement_df dates values name).rows := by
  constructor
  · rw [colsOf_create_measurement_df, colsOf_create_measurement_df,
      zip_reverse_eq dates values hlen]
    apply insertionSort_eq_of_perm_of_nodup_keys
    · exact List.reverse_perm _
    · rw [List.map_reverse, List.nodup_reverse, List.map_fst_zip dates values (le_of_eq hlen)]
      exact hnd
  · exact List.sorted_insertionSort _ _

/-- Witness for C9 (amended) at a concrete distinct-timestamp input. -/
theorem claim_C9_witness :
    ([3, 1, 2] : List Nat).Nodup ∧ ([3, 1, 2] : List Nat).length = ([30, 10, 20] : List Int).length ∧
      (colsOf (create_measurement_df ([3, 1, 2] : List Nat).reverse
          ([30, 10, 20] : List Int).reverse "flow") =
        colsOf (create_measurement_df [3, 1, 2] [30, 10, 20] "flow")
      ∧ List.Sorted (fun a b : MeasRow => a.date ≤ b.date)
          (create_measurement_df [3, 1, 2] [30, 10, 20] "flow").rows) :=
  ⟨by decide, by decide,
    claim_C9_normalization_order [3, 1, 2] [30, 10, 20] "flow" (by decide) (by decide)⟩

end EA
